import Mathlib

/-!
Verification of the gomplekity complexity-tree visualizer.

This file gives a shallow embedding of the core data model and operations of
the repository (classifier, tree builder, color-ratio normalizer, renderer
fragments) and proves or refutes the specification claims about them.

Go machine integers are modelled as `Int` (no arithmetic here comes near
overflow), Go `float64` arithmetic on ratios as `Rat`, and the geometric
formulas of the foliage renderer (which use `math.Sqrt`, `math.Cos`,
`math.Sin`) as functions over `Real`.  The global `math/rand` generator is
modelled as an explicit stream of draws passed to the functions that consume
it.
-/

namespace Gomplekity

/-- One measured function: `FunctionComplexity` from
`internal/complexity/complexity.go`. -/
structure FunctionComplexity where
  name : String
  file : String
  line : Int
  column : Int
  complexity : Int
deriving Repr, DecidableEq

/-- A node of the complexity tree: `TreeNode` from
`internal/complexity/complexity.go`.  The Go struct also carries a non-owning
`Parent` back-pointer, which a pure tree cannot (and need not) represent; all
claims concern the downward structure. -/
inductive TreeNode : Type where
  | node (name : String) (nodeType : String) (complexity : Int)
      (level : String) (color : String) (children : List TreeNode) : TreeNode

namespace TreeNode

def name : TreeNode → String
  | node n _ _ _ _ _ => n

def nodeType : TreeNode → String
  | node _ t _ _ _ _ => t

def complexity : TreeNode → Int
  | node _ _ c _ _ _ => c

def level : TreeNode → String
  | node _ _ _ l _ _ => l

def color : TreeNode → String
  | node _ _ _ _ c _ => c

def children : TreeNode → List TreeNode
  | node _ _ _ _ _ cs => cs

end TreeNode

/-- `ComplexityTree` from `internal/complexity/complexity.go`. -/
structure ComplexityTree where
  root : TreeNode

/-- `ComplexityAnalyzer` from `internal/complexity/complexity.go`: the three
configured thresholds. -/
structure ComplexityAnalyzer where
  mediumThreshold : Int
  highThreshold : Int
  criticalThreshold : Int
deriving Repr, DecidableEq

/-- `NewComplexityAnalyzer` from `internal/complexity/complexity.go`: it only
stores the three thresholds; no validation of any kind is performed. -/
def NewComplexityAnalyzer (mediumThreshold highThreshold criticalThreshold : Int) :
    ComplexityAnalyzer :=
  { mediumThreshold := mediumThreshold
    highThreshold := highThreshold
    criticalThreshold := criticalThreshold }

/-- `GetComplexityLevel` from `internal/complexity/complexity.go`: strict
`<` comparisons against the three thresholds, in order. -/
def GetComplexityLevel (ca : ComplexityAnalyzer) (complexity : Int) : String :=
  if complexity < ca.mediumThreshold then "low"
  else if complexity < ca.highThreshold then "medium"
  else if complexity < ca.criticalThreshold then "high"
  else "critical"

/-- `GetComplexityColor` from `internal/complexity/complexity.go`. -/
def GetComplexityColor (ca : ComplexityAnalyzer) (complexity : Int) : String :=
  match GetComplexityLevel ca complexity with
  | "low" => "green"
  | "medium" => "yellow"
  | "high" => "red"
  | "critical" => "brown"
  | _ => "gray"

/-- Rank of a severity level in the order low < medium < high < critical. -/
def severityRank : String → Nat
  | "low" => 0
  | "medium" => 1
  | "high" => 2
  | "critical" => 3
  | _ => 4

/-- Go's `filepath.Base` on a unix path, as used by `BuildComplexityTree`:
the empty path yields ".", a path of only separators yields "/", otherwise
trailing separators are stripped and the last path element is returned. -/
def filepathBase (s : String) : String :=
  if s = "" then "."
  else
    let rcs := s.toList.reverse.dropWhile (fun c => decide (c = '/'))
    if rcs = [] then "/"
    else String.mk ((rcs.takeWhile (fun c => decide (c ≠ '/'))).reverse)

/-- The grouping key used by `BuildComplexityTree`: `filepath.Base(fn.File)`. -/
def fileKey (fn : FunctionComplexity) : String :=
  filepathBase fn.file

/-- The distinct grouping keys, in first-occurrence order.  (The Go code
collects them in a map whose iteration order is unspecified; every claim here
is order-insensitive, so first-occurrence order is a faithful choice.) -/
def groupKeys (functions : List FunctionComplexity) : List String :=
  (functions.map fileKey).dedup

/-- The records grouped under key `k` by `BuildComplexityTree`. -/
def fileGroup (functions : List FunctionComplexity) (k : String) :
    List FunctionComplexity :=
  functions.filter (fun fn => decide (fileKey fn = k))

/-- Go's `int(f)` conversion from `float64`: truncation toward zero. -/
def intTrunc (q : Rat) : Int :=
  if 0 ≤ q then ⌊q⌋ else ⌈q⌉

/-- The function (leaf) node built for one record inside
`BuildComplexityTree`. -/
def functionNode (ca : ComplexityAnalyzer) (fn : FunctionComplexity) : TreeNode :=
  .node fn.name "function" fn.complexity
    (GetComplexityLevel ca fn.complexity) (GetComplexityColor ca fn.complexity) []

/-- The file (branch) node built for one group inside `BuildComplexityTree`:
complexity is the sum of the group, level and color come from the truncated
floating-point mean of the group. -/
def fileNode (ca : ComplexityAnalyzer) (k : String)
    (group : List FunctionComplexity) : TreeNode :=
  let totalComplexity : Int := (group.map (fun fn => fn.complexity)).sum
  let avgComplexity : Rat := (totalComplexity : Rat) / (group.length : Rat)
  .node k "file" totalComplexity
    (GetComplexityLevel ca (intTrunc avgComplexity))
    (GetComplexityColor ca (intTrunc avgComplexity))
    (group.map (functionNode ca))

/-- `BuildComplexityTree` from `internal/complexity/complexity.go`: group the
records by base file name, build a file node per group and a function node
per record; the root carries no meaningful complexity (Go zero value 0). -/
def BuildComplexityTree (ca : ComplexityAnalyzer)
    (functions : List FunctionComplexity) : ComplexityTree :=
  ⟨.node "Project Root" "root" 0 "low" "green"
    ((groupKeys functions).map (fun k => fileNode ca k (fileGroup functions k)))⟩

/-- The per-severity counting loop of `generateTreeVisualization` (`main`):
how many records classify at the given level. -/
def levelCount (ca : ComplexityAnalyzer) (functions : List FunctionComplexity)
    (lvl : String) : Nat :=
  (functions.filter (fun fn => decide (GetComplexityLevel ca fn.complexity = lvl))).length

/-- The visibility-floor rule of `generateTreeVisualization`: a bucket with a
non-zero count whose ratio fell below 0.1 is raised to 0.1. -/
def visibilityFloor (count : Nat) (q : Rat) : Rat :=
  if 0 < count ∧ q < 1/10 then 1/10 else q

/-- The ratio computation of `generateTreeVisualization` (`main`): per-level
counts divided by the total function count (with 1 substituted for a zero
total), then the visibility floor, yielding (green, yellow, red, brown). -/
def generateTreeVisualizationRatios (ca : ComplexityAnalyzer)
    (functions : List FunctionComplexity) : Rat × Rat × Rat × Rat :=
  let lowCount := levelCount ca functions "low"
  let mediumCount := levelCount ca functions "medium"
  let highCount := levelCount ca functions "high"
  let criticalCount := levelCount ca functions "critical"
  let totalFunctions : Nat := if functions.length = 0 then 1 else functions.length
  let green := (lowCount : Rat) / (totalFunctions : Rat)
  let yellow := (mediumCount : Rat) / (totalFunctions : Rat)
  let red := (highCount : Rat) / (totalFunctions : Rat)
  let brown := (criticalCount : Rat) / (totalFunctions : Rat)
  (visibilityFloor lowCount green, visibilityFloor mediumCount yellow,
    visibilityFloor highCount red, visibilityFloor criticalCount brown)

/-- `ColorRatio` from `internal/tree/tree.go`. -/
structure ColorRatio where
  green : Rat
  yellow : Rat
  red : Rat
  brown : Rat
deriving Repr, DecidableEq

/-- The validation-and-normalization step of `Generate` in
`internal/tree/tree.go`: if the four inputs sum to a non-positive total, the
total is replaced by 1 and the inputs by the defaults 0.4, 0.3, 0.2, 0.1;
then each is divided by the total. -/
def generateColorRatio (green yellow red brown : Rat) : ColorRatio :=
  if green + yellow + red + brown ≤ 0 then
    { green := 0.4 / 1, yellow := 0.3 / 1, red := 0.2 / 1, brown := 0.1 / 1 }
  else
    { green := green / (green + yellow + red + brown)
      yellow := yellow / (green + yellow + red + brown)
      red := red / (green + yellow + red + brown)
      brown := brown / (green + yellow + red + brown) }

/-- The three leaf silhouettes drawn by `svg.go` (healthy, accented caution,
jagged withered). -/
inductive LeafSilhouette : Type where
  | healthy : LeafSilhouette
  | caution : LeafSilhouette
  | danger : LeafSilhouette
deriving Repr, DecidableEq

/-- The shape-selection switch of `drawNaturalLeaf` in `svg.go`: "low" draws
the healthy shape, "medium" the caution shape, "high" the danger (withered)
shape; any other level, "critical" included, matches no case and no shape is
emitted (`none`). -/
def drawNaturalLeafShape (level : String) : Option LeafSilhouette :=
  match level with
  | "low" => some LeafSilhouette.healthy
  | "medium" => some LeafSilhouette.caution
  | "high" => some LeafSilhouette.danger
  | _ => none

/-- The values drawn from the global `math/rand` generator by one call of
`generateLeafInArea` (`tree` package): angle and distance fractions, size,
color index, opacity and rotation.  Only the first two enter the anchor
position. -/
structure LeafDraws where
  uAngle : Real
  uDist : Real
  uSize : Real
  colorIdx : Nat
  uOpacity : Real
  uRotation : Real

/-- The anchor position computed by `generateLeafInArea`:
`angle = u * 2π`, `distance = sqrt(v) * maxRadius * 0.9`, anchored at
`(centerX + distance·cos angle, centerY + distance·sin angle)`. -/
noncomputable def generateLeafInAreaAnchor (centerX centerY maxRadius : Real)
    (d : LeafDraws) : Real × Real :=
  let angle := d.uAngle * 2 * Real.pi
  let distance := Real.sqrt d.uDist * maxRadius * 0.9
  (centerX + distance * Real.cos angle, centerY + distance * Real.sin angle)

/-- How many leaves of each color one foliage layer draws in `addFoliage`:
`int(700 * ratio) / 5` per color with Go (truncating) division, loops not
entered for non-positive bounds. -/
def perLayerLeafCount (ratio : ColorRatio) : Nat :=
  ((intTrunc (700 * ratio.green)).tdiv 5).toNat +
    ((intTrunc (700 * ratio.yellow)).tdiv 5).toNat +
    ((intTrunc (700 * ratio.red)).tdiv 5).toNat +
    ((intTrunc (700 * ratio.brown)).tdiv 5).toNat

/-- The per-layer radius schedule of `addFoliage`:
`radius * (0.3 + layer * 0.14)`. -/
noncomputable def layerRadius (radius : Real) (layer : Nat) : Real :=
  radius * (0.3 + (layer : Real) * 0.14)

/-- All leaf anchor points produced by `addFoliage`: five layers, each drawing
`perLayerLeafCount` leaves at that layer's radius, consuming the stream of
random draws in order. -/
noncomputable def addFoliageAnchors (centerX centerY radius : Real)
    (ratio : ColorRatio) (draws : Nat → LeafDraws) : List (Real × Real) :=
  (List.range 5).flatMap (fun layer =>
    (List.range (perLayerLeafCount ratio)).map (fun i =>
      generateLeafInAreaAnchor centerX centerY (layerRadius radius layer)
        (draws (layer * perLayerLeafCount ratio + i))))

end Gomplekity

namespace Gomplekity

/-- Claim C1 (as stated) is false: with thresholds (10, 15, 20) a complexity
exactly equal to the medium threshold classifies as "medium", not "low",
because the code compares with strict `<`; under the claim's
upper-bound-not-exceeded (`≤`) convention it would be Low. -/
theorem getComplexityLevel_at_boundary_is_medium :
    GetComplexityLevel (NewComplexityAnalyzer 10 15 20) 10 = "medium" ∧
      GetComplexityLevel (NewComplexityAnalyzer 10 15 20) 10 ≠ "low" := by
  constructor
  · rfl
  · decide

/-- Claim C1 (amended): for ascending thresholds T1 < T2 < T3 the classifier
assigns the smallest bucket whose threshold strictly exceeds the complexity
(c < T1 → low, T1 ≤ c < T2 → medium, T2 ≤ c < T3 → high, T3 ≤ c → critical);
each complexity, including one exactly at a threshold, lands in exactly one
bucket, and the complexities 2, 12, 22 under thresholds (10, 15, 20) classify
as low, medium and critical respectively. -/
theorem getComplexityLevel_strict_buckets (m h cr c : Int)
    (hmh : m < h) (hhc : h < cr) :
    ((GetComplexityLevel (NewComplexityAnalyzer m h cr) c = "low" ↔ c < m) ∧
     (GetComplexityLevel (NewComplexityAnalyzer m h cr) c = "medium" ↔ m ≤ c ∧ c < h) ∧
     (GetComplexityLevel (NewComplexityAnalyzer m h cr) c = "high" ↔ h ≤ c ∧ c < cr) ∧
     (GetComplexityLevel (NewComplexityAnalyzer m h cr) c = "critical" ↔ cr ≤ c)) ∧
    GetComplexityLevel (NewComplexityAnalyzer 10 15 20) 2 = "low" ∧
    GetComplexityLevel (NewComplexityAnalyzer 10 15 20) 12 = "medium" ∧
    GetComplexityLevel (NewComplexityAnalyzer 10 15 20) 22 = "critical" := by
  refine ⟨?_, by rfl, by rfl, by rfl⟩
  unfold GetComplexityLevel NewComplexityAnalyzer
  dsimp only
  split_ifs with h1 h2 h3 <;>
    refine ⟨?_, ?_, ?_, ?_⟩ <;>
    simp only [String.reduceEq, false_iff, true_iff, iff_false, iff_true] <;>
    omega

/-- Claim C1 witness: boundary value 10 falls in exactly the medium bucket. -/
theorem getComplexityLevel_strict_buckets_witness :
    GetComplexityLevel (NewComplexityAnalyzer 10 15 20) 10 = "medium" :=
  ((getComplexityLevel_strict_buckets 10 15 20 10 (by decide) (by decide)).1.2.1).mpr
    (by decide)

/-- Claim C7: for ascending thresholds the classifier is monotone: a smaller
complexity never receives a strictly larger severity level in the order
low < medium < high < critical.  (Totality and determinism are immediate:
`GetComplexityLevel` is a total Lean function.) -/
theorem getComplexityLevel_mono (m h cr c1 c2 : Int)
    (hmh : m < h) (hhc : h < cr) (hc : c1 ≤ c2) :
    severityRank (GetComplexityLevel (NewComplexityAnalyzer m h cr) c1) ≤
      severityRank (GetComplexityLevel (NewComplexityAnalyzer m h cr) c2) := by
  unfold GetComplexityLevel NewComplexityAnalyzer
  dsimp only
  split_ifs <;> simp only [severityRank] <;> omega

/-- Claim C7 witness: complexity 3 ranks no higher than complexity 12 under
thresholds (10, 15, 20). -/
theorem getComplexityLevel_mono_witness :
    severityRank (GetComplexityLevel (NewComplexityAnalyzer 10 15 20) 3) ≤
      severityRank (GetComplexityLevel (NewComplexityAnalyzer 10 15 20) 12) :=
  getComplexityLevel_mono 10 15 20 3 12 (by decide) (by decide) (by decide)

/-- Claim C8 (as stated) is false: `NewComplexityAnalyzer` performs no
validation, so with a high threshold (5) not above the medium threshold (10)
construction still succeeds and analysis proceeds (complexity 12 classifies
as "high"); nothing is rejected. -/
theorem newComplexityAnalyzer_no_validation :
    NewComplexityAnalyzer 10 5 20 =
      { mediumThreshold := 10, highThreshold := 5, criticalThreshold := 20 } ∧
      GetComplexityLevel (NewComplexityAnalyzer 10 5 20) 12 = "high" := by
  exact ⟨rfl, rfl⟩

/-- Claim C8 (amended): the constructor accepts any thresholds without
validation and classification silently proceeds; when the high threshold is
not above the medium threshold, the "medium" severity is unreachable for
every complexity — a silent misclassification rather than a fail-fast
rejection. -/
theorem newComplexityAnalyzer_degenerate_medium (m h cr c : Int) (hdeg : h ≤ m) :
    GetComplexityLevel (NewComplexityAnalyzer m h cr) c ≠ "medium" := by
  unfold GetComplexityLevel NewComplexityAnalyzer
  dsimp only
  split_ifs <;> first
    | decide
    | omega

/-- Claim C8 witness: with thresholds (10, 5, 20) complexity 12 is not
classified "medium". -/
theorem newComplexityAnalyzer_degenerate_medium_witness :
    GetComplexityLevel (NewComplexityAnalyzer 10 5 20) 12 ≠ "medium" :=
  newComplexityAnalyzer_degenerate_medium 10 5 20 12 (by decide)

/-- Sums of pointwise sums over a mapped list split into two sums. -/
theorem sum_map_add {α : Type} (l : List α) (f g : α → Nat) :
    (l.map (fun x => f x + g x)).sum = (l.map f).sum + (l.map g).sum := by
  induction l with
  | nil => simp
  | cons a t ih => simp [ih]; omega

/-- Over a duplicate-free list containing `k0`, the indicator of `k0` sums
to exactly 1. -/
theorem sum_map_indicator {β : Type} [DecidableEq β] (K : List β) (k0 : β)
    (hnd : K.Nodup) (hk : k0 ∈ K) :
    (K.map (fun k => if k0 = k then (1 : Nat) else 0)).sum = 1 := by
  induction K with
  | nil => cases hk
  | cons b t ih =>
    rcases List.mem_cons.mp hk with h | h
    · subst h
      have hz : (t.map (fun k => if k0 = k then (1 : Nat) else 0)).sum = 0 := by
        apply List.sum_eq_zero
        intro x hx
        obtain ⟨k, hkt, rfl⟩ := List.mem_map.mp hx
        have : k0 ≠ k := fun e => (List.nodup_cons.mp hnd).1 (e ▸ hkt)
        simp [this]
      simp [hz]
    · have hne : k0 ≠ b := fun e => (List.nodup_cons.mp hnd).1 (e ▸ h)
      simp [hne, ih (List.nodup_cons.mp hnd).2 h]

/-- Partitioning a list by the distinct values of a key function: the group
sizes sum back to the length of the list. -/
theorem sum_group_lengths {α β : Type} [DecidableEq β] (l : List α) (f : α → β) :
    ((l.map f).dedup.map
        (fun k => (l.filter (fun x => decide (f x = k))).length)).sum = l.length := by
  induction l with
  | nil => simp
  | cons a t ih =>
    have hstep : ∀ k : β, ((a :: t).filter (fun x => decide (f x = k))).length
        = (t.filter (fun x => decide (f x = k))).length + (if f a = k then 1 else 0) := by
      intro k
      by_cases h : f a = k <;> simp [List.filter_cons, h]
    by_cases hmem : f a ∈ t.map f
    · rw [List.map_cons, List.dedup_cons_of_mem hmem]
      simp only [hstep]
      rw [sum_map_add, ih,
        sum_map_indicator ((t.map f).dedup) (f a) (List.nodup_dedup _)
          (List.mem_dedup.mpr hmem)]
      simp [List.length_cons]
    · rw [List.map_cons, List.dedup_cons_of_not_mem hmem, List.map_cons, List.sum_cons]
      have hhead : ((a :: t).filter (fun x => decide (f x = f a))).length
          = (t.filter (fun x => decide (f x = f a))).length + 1 := by
        simp [List.filter_cons]
      have htail0 : (t.filter (fun x => decide (f x = f a))).length = 0 := by
        rw [List.length_eq_zero]
        apply List.filter_eq_nil_iff.mpr
        intro x hx
        simp only [decide_eq_true_eq]
        intro e
        exact hmem (List.mem_map.mpr ⟨x, hx, e⟩)
      have hrest : ((t.map f).dedup.map
          (fun k => ((a :: t).filter (fun x => decide (f x = k))).length))
          = ((t.map f).dedup.map
          (fun k => (t.filter (fun x => decide (f x = k))).length)) := by
        apply List.map_congr_left
        intro k hkd
        have hka : f a ≠ k := by
          intro e
          exact hmem (e ▸ List.mem_dedup.mp hkd)
        rw [hstep k, if_neg hka]
        omega
      rw [hhead, htail0, hrest, ih]
      simp [List.length_cons]
      omega

/-- Claim C2 (as stated) is false: two records in two distinct files,
`a/x.go` and `b/x.go`, produce a single FileGroup child, because the builder
groups by the base file name only. -/
theorem buildComplexityTree_base_name_collision :
    ((BuildComplexityTree (NewComplexityAnalyzer 10 15 20)
        [⟨"f", "a/x.go", 1, 1, 2⟩, ⟨"g", "b/x.go", 1, 1, 3⟩]).root.children.length = 1) ∧
      ("a/x.go" : String) ≠ "b/x.go" := by
  constructor
  · rfl
  · decide

/-- Claim C2 (amended): building from the empty record list yields a Root
with zero children (not an error), and building from N records yields one
FileGroup child per distinct BASE file name (not per distinct file
identifier), the Function-child counts of the FileGroups summing to N. -/
theorem buildComplexityTree_child_counts (ca : ComplexityAnalyzer)
    (functions : List FunctionComplexity) :
    (BuildComplexityTree ca []).root.children = [] ∧
    (BuildComplexityTree ca functions).root.children.length
      = ((functions.map (fun fn => filepathBase fn.file)).dedup).length ∧
    ((BuildComplexityTree ca functions).root.children.map
        (fun n => n.children.length)).sum = functions.length := by
  refine ⟨rfl, ?_, ?_⟩
  · show ((groupKeys functions).map (fun k => fileNode ca k (fileGroup functions k))).length
        = ((functions.map (fun fn => filepathBase fn.file)).dedup).length
    rw [List.length_map]
    rfl
  · show (((groupKeys functions).map (fun k => fileNode ca k (fileGroup functions k))).map
        (fun n => n.children.length)).sum = functions.length
    rw [List.map_map]
    have : ((fun n => n.children.length) ∘ fun k => fileNode ca k (fileGroup functions k))
        = fun k => (fileGroup functions k).length := by
      funext k
      simp [fileNode, TreeNode.children]
    rw [this]
    exact sum_group_lengths functions fileKey

/-- Claim C3: every FileGroup child of the built root has a non-empty list
of Function children, its complexity is the sum of its children's
complexities, and its severity level is the classifier applied to the
truncated mean of its children's complexities. -/
theorem fileNode_sum_and_mean_level (ca : ComplexityAnalyzer)
    (functions : List FunctionComplexity) (n : TreeNode)
    (hn : n ∈ (BuildComplexityTree ca functions).root.children) :
    n.children ≠ [] ∧
    n.complexity = (n.children.map TreeNode.complexity).sum ∧
    n.level = GetComplexityLevel ca
      (intTrunc (((n.children.map TreeNode.complexity).sum : Rat) /
        (n.children.length : Rat))) := by
  obtain ⟨k, hk, rfl⟩ := List.mem_map.mp hn
  have hgrp : fileGroup functions k ≠ [] := by
    obtain ⟨fn, hfn, hkey⟩ := List.mem_map.mp (List.mem_dedup.mp hk)
    intro hnil
    have hmem : fn ∈ fileGroup functions k :=
      List.mem_filter.mpr ⟨hfn, by simp [hkey]⟩
    rw [hnil] at hmem
    cases hmem
  have hchildren : (fileNode ca k (fileGroup functions k)).children
      = (fileGroup functions k).map (functionNode ca) := rfl
  have hcompmap : ((fileGroup functions k).map (functionNode ca)).map TreeNode.complexity
      = (fileGroup functions k).map (fun fn => fn.complexity) := by
    rw [List.map_map]
    rfl
  refine ⟨?_, ?_, ?_⟩
  · rw [hchildren]
    intro h
    exact hgrp (List.map_eq_nil_iff.mp h)
  · rw [hchildren, hcompmap]
    rfl
  · rw [hchildren, hcompmap, List.length_map]
    rfl

/-- Claim C3 witness: for two records of complexities 2 and 3 in `x.go`, the
single FileGroup child has children, complexity 5 = 2 + 3 and level from the
truncated mean 2. -/
theorem fileNode_sum_and_mean_level_witness :
    (fileNode (NewComplexityAnalyzer 10 15 20) "x.go"
        (fileGroup [⟨"f", "x.go", 1, 1, 2⟩, ⟨"g", "x.go", 2, 1, 3⟩] "x.go")).children ≠ [] ∧
    (fileNode (NewComplexityAnalyzer 10 15 20) "x.go"
        (fileGroup [⟨"f", "x.go", 1, 1, 2⟩, ⟨"g", "x.go", 2, 1, 3⟩] "x.go")).complexity
      = (((fileNode (NewComplexityAnalyzer 10 15 20) "x.go"
        (fileGroup [⟨"f", "x.go", 1, 1, 2⟩, ⟨"g", "x.go", 2, 1, 3⟩] "x.go")).children.map
          TreeNode.complexity).sum) ∧
    (fileNode (NewComplexityAnalyzer 10 15 20) "x.go"
        (fileGroup [⟨"f", "x.go", 1, 1, 2⟩, ⟨"g", "x.go", 2, 1, 3⟩] "x.go")).level
      = GetComplexityLevel (NewComplexityAnalyzer 10 15 20)
        (intTrunc ((((fileNode (NewComplexityAnalyzer 10 15 20) "x.go"
          (fileGroup [⟨"f", "x.go", 1, 1, 2⟩, ⟨"g", "x.go", 2, 1, 3⟩] "x.go")).children.map
            TreeNode.complexity).sum : Rat) /
          ((fileNode (NewComplexityAnalyzer 10 15 20) "x.go"
            (fileGroup [⟨"f", "x.go", 1, 1, 2⟩, ⟨"g", "x.go", 2, 1, 3⟩] "x.go")).children.length
              : Rat))) :=
  fileNode_sum_and_mean_level (NewComplexityAnalyzer 10 15 20)
    [⟨"f", "x.go", 1, 1, 2⟩, ⟨"g", "x.go", 2, 1, 3⟩]
    (fileNode (NewComplexityAnalyzer 10 15 20) "x.go"
      (fileGroup [⟨"f", "x.go", 1, 1, 2⟩, ⟨"g", "x.go", 2, 1, 3⟩] "x.go"))
    (List.mem_singleton.mpr rfl)

/-- Claim C9: the tree builder is a total function (it cannot fail), and a
record whose file identifier is empty is grouped under the sentinel name "."
(the base-name of the empty path), its function node present in that group
with its name and complexity intact. -/
theorem buildComplexityTree_empty_file_sentinel (ca : ComplexityAnalyzer)
    (functions : List FunctionComplexity) (r : FunctionComplexity)
    (hr : r ∈ functions) (hfile : r.file = "") :
    ∃ n ∈ (BuildComplexityTree ca functions).root.children, n.name = "." ∧
      ∃ c ∈ n.children, c.name = r.name ∧ c.complexity = r.complexity := by
  have hkey : fileKey r = "." := by
    unfold fileKey
    rw [hfile]
    rfl
  refine ⟨fileNode ca "." (fileGroup functions "."), ?_, rfl,
    functionNode ca r, ?_, rfl, rfl⟩
  · exact List.mem_map.mpr ⟨".",
      List.mem_dedup.mpr (List.mem_map.mpr ⟨r, hr, hkey⟩), rfl⟩
  · show functionNode ca r ∈ (fileGroup functions ".").map (functionNode ca)
    exact List.mem_map_of_mem _ (List.mem_filter.mpr ⟨hr, by simp [hkey]⟩)

/-- Claim C9 witness: a single record with an empty file identifier is placed
under the FileGroup named "." with its name and complexity preserved. -/
theorem buildComplexityTree_empty_file_sentinel_witness :
    ∃ n ∈ (BuildComplexityTree (NewComplexityAnalyzer 10 15 20)
        [⟨"orphan", "", 1, 1, 3⟩]).root.children, n.name = "." ∧
      ∃ c ∈ n.children, c.name = "orphan" ∧ c.complexity = 3 :=
  buildComplexityTree_empty_file_sentinel (NewComplexityAnalyzer 10 15 20)
    [⟨"orphan", "", 1, 1, 3⟩] ⟨"orphan", "", 1, 1, 3⟩
    (List.mem_singleton.mpr rfl) rfl

/-- The visibility floor never outputs a negative ratio. -/
theorem visibilityFloor_nonneg (count : Nat) (q : Rat) (hq : 0 ≤ q) :
    0 ≤ visibilityFloor count q := by
  unfold visibilityFloor
  split_ifs with h
  · norm_num
  · exact hq

/-- A bucket with a non-zero count ends at or above the 0.1 floor. -/
theorem visibilityFloor_min (count : Nat) (q : Rat) (hc : 0 < count) :
    1/10 ≤ visibilityFloor count q := by
  unfold visibilityFloor
  split_ifs with h
  · norm_num
  · rcases not_and_or.mp h with h1 | h1
    · exact absurd hc h1
    · exact le_of_not_lt h1

/-- Claim C4: the ratio computation of `generateTreeVisualization` produces
four ratios that are all nonnegative, every severity bucket with a non-zero
record count is floored at 0.1, and an empty record list (total 0, with the
divisor replaced by 1) yields all four ratios equal to 0. -/
theorem generateTreeVisualizationRatios_props (ca : ComplexityAnalyzer)
    (functions : List FunctionComplexity) :
    (0 ≤ (generateTreeVisualizationRatios ca functions).1 ∧
      0 ≤ (generateTreeVisualizationRatios ca functions).2.1 ∧
      0 ≤ (generateTreeVisualizationRatios ca functions).2.2.1 ∧
      0 ≤ (generateTreeVisualizationRatios ca functions).2.2.2) ∧
    (0 < levelCount ca functions "low" →
      1/10 ≤ (generateTreeVisualizationRatios ca functions).1) ∧
    (0 < levelCount ca functions "medium" →
      1/10 ≤ (generateTreeVisualizationRatios ca functions).2.1) ∧
    (0 < levelCount ca functions "high" →
      1/10 ≤ (generateTreeVisualizationRatios ca functions).2.2.1) ∧
    (0 < levelCount ca functions "critical" →
      1/10 ≤ (generateTreeVisualizationRatios ca functions).2.2.2) ∧
    (functions = [] →
      generateTreeVisualizationRatios ca functions = (0, 0, 0, 0)) := by
  have hdiv : ∀ c : Nat, (0 : Rat) ≤
      (c : Rat) / ((if functions.length = 0 then 1 else functions.length : Nat) : Rat) := by
    intro c
    apply div_nonneg (by positivity)
    split_ifs <;> positivity
  refine ⟨⟨?_, ?_, ?_, ?_⟩, fun h => ?_, fun h => ?_, fun h => ?_, fun h => ?_, fun h => ?_⟩
  · exact visibilityFloor_nonneg _ _ (hdiv _)
  · exact visibilityFloor_nonneg _ _ (hdiv _)
  · exact visibilityFloor_nonneg _ _ (hdiv _)
  · exact visibilityFloor_nonneg _ _ (hdiv _)
  · exact visibilityFloor_min _ _ h
  · exact visibilityFloor_min _ _ h
  · exact visibilityFloor_min _ _ h
  · exact visibilityFloor_min _ _ h
  · subst h
    simp [generateTreeVisualizationRatios, levelCount, visibilityFloor]

/-- Claim C4 witness: a single critical record (complexity 22 under
thresholds (10, 15, 20)) yields four nonnegative ratios with the brown
bucket at or above the 0.1 floor, and the empty record list yields all-zero
ratios. -/
theorem generateTreeVisualizationRatios_props_witness :
    (0 ≤ (generateTreeVisualizationRatios (NewComplexityAnalyzer 10 15 20)
        [⟨"f", "x.go", 1, 1, 22⟩]).1) ∧
    (1/10 ≤ (generateTreeVisualizationRatios (NewComplexityAnalyzer 10 15 20)
        [⟨"f", "x.go", 1, 1, 22⟩]).2.2.2) ∧
    generateTreeVisualizationRatios (NewComplexityAnalyzer 10 15 20) [] = (0, 0, 0, 0) :=
  ⟨(generateTreeVisualizationRatios_props (NewComplexityAnalyzer 10 15 20)
      [⟨"f", "x.go", 1, 1, 22⟩]).1.1,
    (generateTreeVisualizationRatios_props (NewComplexityAnalyzer 10 15 20)
      [⟨"f", "x.go", 1, 1, 22⟩]).2.2.2.2.1 (by decide),
    (generateTreeVisualizationRatios_props (NewComplexityAnalyzer 10 15 20) []).2.2.2.2.2 rfl⟩

/-- Claim C10: `Generate` normalizes a positive-sum input to fractions that
are each input divided by the sum, so the four fields sum to 1; a
non-positive-sum input is replaced by the fixed defaults 0.4, 0.3, 0.2, 0.1
rather than producing all-zero ratios. -/
theorem generateColorRatio_normalized (green yellow red brown : Rat) :
    (0 < green + yellow + red + brown →
      generateColorRatio green yellow red brown =
        { green := green / (green + yellow + red + brown)
          yellow := yellow / (green + yellow + red + brown)
          red := red / (green + yellow + red + brown)
          brown := brown / (green + yellow + red + brown) } ∧
      (generateColorRatio green yellow red brown).green +
        (generateColorRatio green yellow red brown).yellow +
        (generateColorRatio green yellow red brown).red +
        (generateColorRatio green yellow red brown).brown = 1) ∧
    (green + yellow + red + brown ≤ 0 →
      generateColorRatio green yellow red brown =
        { green := 0.4, yellow := 0.3, red := 0.2, brown := 0.1 }) := by
  constructor
  · intro hpos
    have hne : green + yellow + red + brown ≠ 0 := ne_of_gt hpos
    have heq : generateColorRatio green yellow red brown =
        { green := green / (green + yellow + red + brown)
          yellow := yellow / (green + yellow + red + brown)
          red := red / (green + yellow + red + brown)
          brown := brown / (green + yellow + red + brown) } := by
      unfold generateColorRatio
      rw [if_neg (not_le.mpr hpos)]
    refine ⟨heq, ?_⟩
    rw [heq]
    field_simp
  · intro hnonpos
    unfold generateColorRatio
    rw [if_pos hnonpos]
    norm_num

/-- Claim C10 witness: the inputs (0.4, 0.3, 0.2, 0.1) sum to 1 > 0 and the
normalized fields sum to 1, while the all-zero input falls back to the fixed
defaults. -/
theorem generateColorRatio_normalized_witness :
    ((generateColorRatio 0.4 0.3 0.2 0.1).green +
      (generateColorRatio 0.4 0.3 0.2 0.1).yellow +
      (generateColorRatio 0.4 0.3 0.2 0.1).red +
      (generateColorRatio 0.4 0.3 0.2 0.1).brown = 1) ∧
    generateColorRatio 0 0 0 0 =
      { green := 0.4, yellow := 0.3, red := 0.2, brown := 0.1 } :=
  ⟨((generateColorRatio_normalized 0.4 0.3 0.2 0.1).1 (by norm_num)).2,
    (generateColorRatio_normalized 0 0 0 0).2 (by norm_num)⟩

/-- Claim C6 is right and the code wrong: the severity "critical" is
reachable (complexity 22 under thresholds (10, 15, 20)), the shape switch of
`drawNaturalLeaf` draws the danger silhouette for "high", but it has no case
for "critical", so a critical leaf receives no silhouette at all (`none`) —
contradicting the requirement that every severity receives a drawn shape,
with High and Critical sharing the withered one. -/
theorem drawNaturalLeaf_skips_critical :
    GetComplexityLevel (NewComplexityAnalyzer 10 15 20) 22 = "critical" ∧
    drawNaturalLeafShape "high" = some LeafSilhouette.danger ∧
    drawNaturalLeafShape (GetComplexityLevel (NewComplexityAnalyzer 10 15 20) 22) = none := by
  exact ⟨rfl, rfl, rfl⟩

/-- Claim C5 (as stated) is false: the leaf anchor point computed by
`generateLeafInArea` depends on the values drawn from the global `math/rand`
generator (here at foliage center (250, 190) and layer radius 36): the draws
(angle 0, distance 0) and (angle 0, distance 1/4) anchor the leaf at two
different points.  Two runs only agree when the global generator happens to
produce the same draws, so anchor positions — functional geometry, not
decorative jitter — are not identical across runs. -/
theorem generateLeafInAreaAnchor_depends_on_rng :
    generateLeafInAreaAnchor 250 190 36 ⟨0, 0, 0, 0, 0, 0⟩ ≠
      generateLeafInAreaAnchor 250 190 36 ⟨0, 1/4, 0, 0, 0, 0⟩ := by
  intro h
  have h4 : Real.sqrt (1/4) = 1/2 := by
    rw [show (1/4 : Real) = (1/2)^2 by norm_num, Real.sqrt_sq (by norm_num)]
  have hfst := congrArg Prod.fst h
  simp only [generateLeafInAreaAnchor, Real.sqrt_zero, zero_mul, Real.cos_zero,
    h4] at hfst
  norm_num at hfst

/-- Claim C5 (amended): for a fixed ratio and layout configuration the
non-random geometry is deterministic — in particular the number of leaf
anchors produced by `addFoliage` (and the layer schedule behind it) is the
same for any two runs, whatever the random generator yields — but the anchor
positions themselves consume random draws and coincide only when the draws
coincide. -/
theorem addFoliageAnchors_count_deterministic (centerX centerY radius : Real)
    (ratio : ColorRatio) (s t : Nat → LeafDraws) :
    (addFoliageAnchors centerX centerY radius ratio s).length =
      (addFoliageAnchors centerX centerY radius ratio t).length := by
  unfold addFoliageAnchors
  rw [List.length_flatMap, List.length_flatMap]
  congr 1
  apply List.map_congr_left
  intro layer _
  simp [Function.comp, List.length_map]

end Gomplekity
